import Mathlib

/-!
Verification of the ngx-rust configuration/module lifecycle framework.

This file shallowly embeds the Rust sources of the repository:
  * `examples/curl.rs` and `examples/awssig.rs` (directive handlers and
    `Merge` implementations of the example modules),
  * `src/http/module.rs` (`RawHttpModule` default merge callbacks),
  * `src/http/module_safe.rs` (`NgxConf::new`, `SafeHttpModule` default
    merge methods, and the generated raw lifecycle callbacks),
  * `src/http/conf/macros.rs` (the `command!` raw directive-dispatch
    callback),
  * `src/http/conf/command.rs` (`Command::new` and the `type_` bitmask),
  * `src/core/pool.rs` (`Pool::from_ngx_pool`, `Pool::allocate`,
    `Pool::add_cleanup_for_value`).

Strings are embedded as byte lists, raw pointers as natural numbers with
`0` standing for the null pointer, and panics/aborts as explicit outcome
constructors.
-/

namespace NgxRust

/-- Byte strings (`&str`/`String`/`ngx_str_t` contents) are lists of bytes. -/
abbrev Bytes := List Nat

/-- ASCII lower-casing of one byte, as used by `u8::eq_ignore_ascii_case`. -/
def asciiLower (b : Nat) : Nat :=
  if 65 ≤ b ∧ b ≤ 90 then b + 32 else b

/-- Embedding of Rust `str::eq_ignore_ascii_case`: equal lengths and
pointwise ASCII-case-insensitive equality of the bytes. -/
def eqIgnoreAsciiCase (a b : Bytes) : Bool :=
  a.length == b.length && (a.zip b).all fun p => asciiLower p.1 == asciiLower p.2

/-- The byte string `on`. -/
def onBytes : Bytes := [111, 110]

/-- The byte string `off`. -/
def offBytes : Bytes := [111, 102, 102]

/-- The byte string `no`, a token that is neither `on` nor `off`. -/
def noBytes : Bytes := [110, 111]

/-- The byte string `s3.amazonaws.com`, the hard default for the optional
`s3_endpoint` field in `examples/awssig.rs`. -/
def s3DefaultEndpointBytes : Bytes :=
  [115, 51, 46, 97, 109, 97, 122, 111, 110, 97, 119, 115, 46, 99, 111, 109]

/-- Result of a typed directive handler, Rust `Result<(), ()>`. -/
inductive HandlerResult where
  | ok
  | err
deriving DecidableEq

/-- The merge error type of `src/http/module.rs` (`MergeConfigError`). -/
inductive MergeConfigError where
  | NoValue
deriving DecidableEq

/-- Modelled from the spec: the host's configuration-callback success
sentinel `NGX_CONF_OK` (a null `char` pointer). The constant itself lives
in the crate's FFI layer, outside the provided sources. -/
def NGX_CONF_OK_PTR : Nat := 0

/-- Modelled from the spec: the host's configuration-callback error
sentinel `NGX_CONF_ERROR` (the all-ones, hence non-null, `char` pointer).
The constant itself lives in the crate's FFI layer, outside the provided
sources. -/
def NGX_CONF_ERROR_PTR : Nat := 2 ^ 64 - 1

/-- Modelled from the spec: the host status code `NGX_OK`. -/
def NGX_OK_STATUS : Int := 0

/-- Modelled from the spec: the host status code `NGX_ERROR`. -/
def NGX_ERROR_STATUS : Int := -1

/-! ## The curl example module (`examples/curl.rs`) -/

/-- The `ModuleConfig` struct of `examples/curl.rs`: a single flag. -/
structure CurlModuleConfig where
  enable : Bool
deriving DecidableEq

/-- `Default` for the curl `ModuleConfig` (derived: `false`). -/
def curlDefault : CurlModuleConfig := ⟨false⟩

/-- `set_curl` from `examples/curl.rs`. `val` is the text of `args[1]`
(the directive's single argument). The handler first defaults the flag to
`false`, then compares the token case-insensitively against `on` and
`off`, and always returns `Ok(())`. -/
def set_curl (val : Bytes) (conf : CurlModuleConfig) : CurlModuleConfig × HandlerResult :=
  let conf := { conf with enable := false }
  let conf :=
    if val.length == 2 && eqIgnoreAsciiCase val onBytes then
      { conf with enable := true }
    else if val.length == 3 && eqIgnoreAsciiCase val offBytes then
      { conf with enable := false }
    else
      conf
  (conf, HandlerResult.ok)

/-- `Merge for ModuleConfig` from `examples/curl.rs`: the result is the
updated `self` together with the returned `Result`. -/
def curlMerge (self prev : CurlModuleConfig) : CurlModuleConfig × Option MergeConfigError :=
  let self := if prev.enable then { self with enable := true } else self
  (self, none)

/-! ## The awssig example module (`examples/awssig.rs`) -/

/-- The `ModuleConfig` struct of `examples/awssig.rs`. -/
structure AwsModuleConfig where
  enable : Bool
  access_key : Bytes
  secret_key : Bytes
  s3_bucket : Bytes
  s3_endpoint : Bytes
deriving DecidableEq

/-- `Default` for the awssig `ModuleConfig` (derived: `false` and empty
strings). -/
def awsDefault : AwsModuleConfig := ⟨false, [], [], [], []⟩

/-- `ngx_http_awssigv4_commands_set_enable` from `examples/awssig.rs`.
`val` is the text of `args[1]`. The function always returns the null
pointer (success). -/
def ngx_http_awssigv4_commands_set_enable (val : Bytes) (conf : AwsModuleConfig) :
    AwsModuleConfig × Nat :=
  let conf := { conf with enable := false }
  let conf :=
    if val.length == 2 && eqIgnoreAsciiCase val onBytes then
      { conf with enable := true }
    else if val.length == 3 && eqIgnoreAsciiCase val offBytes then
      { conf with enable := false }
    else
      conf
  (conf, NGX_CONF_OK_PTR)

/-- One string-field resolution step of the awssig merge: if `self`'s
field is empty, adopt `prev`'s value when non-empty, else the empty
string (`String::from("")`). -/
def awsResolveField (self prev : Bytes) : Bytes :=
  if self.isEmpty then (if !prev.isEmpty then prev else []) else self

/-- `Merge for ModuleConfig` from `examples/awssig.rs`. The sequential
field mutations of the Rust code are embedded as record updates; each
early `return Err(MergeConfigError::NoValue)` yields the `self` state at
that program point together with the error. The `s3_endpoint` field is
optional and falls back to `s3.amazonaws.com`. -/
def awssigMerge (self prev : AwsModuleConfig) : AwsModuleConfig × Option MergeConfigError :=
  let e := if prev.enable then true else self.enable
  let ak := awsResolveField self.access_key prev.access_key
  if e && ak.isEmpty then
    ({ self with enable := e, access_key := ak }, some MergeConfigError.NoValue)
  else
    let sk := awsResolveField self.secret_key prev.secret_key
    if e && sk.isEmpty then
      ({ self with enable := e, access_key := ak, secret_key := sk },
        some MergeConfigError.NoValue)
    else
      let sb := awsResolveField self.s3_bucket prev.s3_bucket
      if e && sb.isEmpty then
        ({ self with enable := e, access_key := ak, secret_key := sk, s3_bucket := sb },
          some MergeConfigError.NoValue)
      else
        let se :=
          if self.s3_endpoint.isEmpty then
            (if !prev.s3_endpoint.isEmpty then prev.s3_endpoint else s3DefaultEndpointBytes)
          else self.s3_endpoint
        ({ enable := e, access_key := ak, secret_key := sk, s3_bucket := sb,
           s3_endpoint := se }, none)

/-! ## Default merge callbacks (`src/http/module.rs`, `src/http/module_safe.rs`)

A `Merge` implementation is a function `self → prev → (new self, result)`;
the default tier-merge callbacks differ only in which of the two
configuration values plays the `self` role. Each embedding returns the
final `(prev, conf)` pair together with the merge result. -/

/-- Shape of an embedded `Merge::merge` implementation. -/
abbrev MergeFn (α : Type) := α → α → α × Option MergeConfigError

/-- Default `SafeHttpModule::merge_srv_conf` (`src/http/module_safe.rs`,
body `conf.merge(prev)`): the child `conf` merges with the parent `prev`. -/
def safe_merge_srv_conf (m : MergeFn α) (prev conf : α) : α × α × Option MergeConfigError :=
  let r := m conf prev
  (prev, r.1, r.2)

/-- Default `SafeHttpModule::merge_loc_conf` (`src/http/module_safe.rs`,
body `prev.merge(conf)`): the parent `prev` merges with the child `conf`. -/
def safe_merge_loc_conf (m : MergeFn α) (prev conf : α) : α × α × Option MergeConfigError :=
  let r := m prev conf
  (r.1, conf, r.2)

/-- Default `RawHttpModule::merge_srv_conf` (`src/http/module.rs`, body
`conf.merge(prev)`), with the returned sentinel pointer. -/
def raw_merge_srv_conf (m : MergeFn α) (prev conf : α) : α × α × Nat :=
  let r := m conf prev
  (prev, r.1, match r.2 with | none => NGX_CONF_OK_PTR | some _ => NGX_CONF_ERROR_PTR)

/-- Default `RawHttpModule::merge_loc_conf` (`src/http/module.rs`, body
`conf.merge(prev)`), with the returned sentinel pointer. -/
def raw_merge_loc_conf (m : MergeFn α) (prev conf : α) : α × α × Nat :=
  let r := m conf prev
  (prev, r.1, match r.2 with | none => NGX_CONF_OK_PTR | some _ => NGX_CONF_ERROR_PTR)

/-! ## The `command!` dispatch callback (`src/http/conf/macros.rs`) -/

/-- Observable outcome of an `extern "C"` callback: either a returned
pointer value, or a Rust panic (from `Option::unwrap` on `None` or an
out-of-range slice index). -/
inductive CallbackOutcome where
  | ret (v : Nat)
  | panicked
deriving DecidableEq

/-- The `__raw_c_handler_` generated by the `command!` macro
(`src/http/conf/macros.rs`). `conf` models the `*mut c_void`
configuration pointer reinterpreted as `*mut ConfType` (`none` = null),
`argsArr` models `(*cf).args` (`none` = null array pointer). The code
unwraps both pointers, takes the view `&args[1..]` (which panics if the
host array is empty), runs the typed handler, and maps `Ok` to
`NGX_CONF_OK` and `Err` to `NGX_CONF_ERROR`. -/
def raw_c_handler (handler : List Bytes → α → α × HandlerResult)
    (conf : Option α) (argsArr : Option (List Bytes)) : Option α × CallbackOutcome :=
  match conf with
  | none => (none, CallbackOutcome.panicked)
  | some conf =>
    match argsArr with
    | none => (some conf, CallbackOutcome.panicked)
    | some args =>
      if args.length < 1 then (some conf, CallbackOutcome.panicked)
      else
        let view := args.drop 1
        let r := handler view conf
        (some r.1,
          CallbackOutcome.ret
            (match r.2 with
             | HandlerResult.ok => NGX_CONF_OK_PTR
             | HandlerResult.err => NGX_CONF_ERROR_PTR))

/-! ## The pool wrapper (`src/core/pool.rs`) -/

/-- Result of `Pool::from_ngx_pool`: either the wrapped pool, or the
failure of `assert!(!pool.is_null())`. -/
inductive FromPoolResult where
  | pool (p : Nat)
  | assertFailed
deriving DecidableEq

/-- `Pool::from_ngx_pool` (`src/core/pool.rs`): asserts that the raw pool
pointer is non-null. -/
def pool_from_ngx_pool (pool : Nat) : FromPoolResult :=
  if pool == 0 then FromPoolResult.assertFailed else FromPoolResult.pool pool

/-- Observable outcome of one `Pool::allocate` call: the returned handle
(`none` for a `None` return), how many times the just-written value's
destructor was run in place before returning, and whether a deferred
cleanup handler for this allocation remains registered with the arena. -/
structure AllocOutcome where
  ret : Option Nat
  dropsInPlace : Nat
  cleanupRegistered : Bool
deriving DecidableEq

/-- The address produced by `NonNull::dangling()` for zero-sized types,
modelled as an arbitrary non-null sentinel. -/
def danglingAddr : Nat := 1

/-- `Pool::allocate` (`src/core/pool.rs`). `szT` is `size_of::<T>()`;
`pallocRes` is the pointer returned by the host's `ngx_palloc` (`0` =
null); `cleanupAddRes` is the pointer returned by the host's
`ngx_pool_cleanup_add` inside `add_cleanup_for_value` (`0` = null, which
makes registration fail). On registration failure the written value is
dropped in place once and `None` is returned; nothing stays registered. -/
def pool_allocate (szT pallocRes cleanupAddRes : Nat) : AllocOutcome :=
  if szT == 0 then
    { ret := some danglingAddr, dropsInPlace := 0, cleanupRegistered := false }
  else if pallocRes == 0 then
    { ret := none, dropsInPlace := 0, cleanupRegistered := false }
  else if cleanupAddRes == 0 then
    { ret := none, dropsInPlace := 1, cleanupRegistered := false }
  else
    { ret := some pallocRes, dropsInPlace := 0, cleanupRegistered := true }

/-! ## The configuration accessor and safe lifecycle callbacks
(`src/http/module_safe.rs`) -/

/-- The error enum of `src/http/module_safe.rs`. -/
inductive SafeError where
  | error
  | again
  | busy
  | declined
  | abort
deriving DecidableEq

/-- Modelled from the spec: the host status codes behind
`impl From<Error> for Status` (`NGX_ERROR`, `NGX_AGAIN`, `NGX_BUSY`,
`NGX_DECLINED`, `NGX_ABORT`); the numeric values live in the FFI layer
outside the provided sources. -/
def SafeError.toStatus : SafeError → Int
  | SafeError.error => -1
  | SafeError.again => -2
  | SafeError.busy => -3
  | SafeError.declined => -5
  | SafeError.abort => -6

/-- A constructed `NgxConf`: the validated `ngx_conf_t` and
`ngx_module_t` addresses. -/
structure NgxConfHandle where
  inner : Nat
  module : Nat
deriving DecidableEq

/-- `NgxConf::new` (`src/http/module_safe.rs`). `cfAlign` and `modAlign`
are `align_of::<ngx_conf_t>()` and `align_of::<ngx_module_t>()`; a
pointer `p` is `is_aligned()` when `p % align == 0`. Construction fails
when either pointer is null or misaligned. -/
def ngxConfNew (cfAlign modAlign inner module : Nat) : Option NgxConfHandle :=
  if inner == 0 || !(inner % cfAlign == 0) then none
  else if module == 0 || !(module % modAlign == 0) then none
  else some { inner := inner, module := module }

/-- Generated `preconfiguration` callback of `impl HTTPModule for T:
SafeHttpModule` (`src/http/module_safe.rs`): on accessor-construction
failure return `NGX_ERROR`, otherwise map the typed implementation's
result to a status. -/
def safe_cb_preconfiguration (impl : NgxConfHandle → Option SafeError)
    (cfAlign modAlign cf m : Nat) : Int :=
  match ngxConfNew cfAlign modAlign cf m with
  | none => NGX_ERROR_STATUS
  | some nc =>
    match impl nc with
    | none => NGX_OK_STATUS
    | some e => e.toStatus

/-- Generated `postconfiguration` callback of `impl HTTPModule for T:
SafeHttpModule` (`src/http/module_safe.rs`). -/
def safe_cb_postconfiguration (impl : NgxConfHandle → Option SafeError)
    (cfAlign modAlign cf m : Nat) : Int :=
  match ngxConfNew cfAlign modAlign cf m with
  | none => NGX_ERROR_STATUS
  | some nc =>
    match impl nc with
    | none => NGX_OK_STATUS
    | some e => e.toStatus

/-- Generated `create_main_conf` callback (`src/http/module_safe.rs`):
null pointer on accessor-construction failure, else the typed
implementation's pointer or null. -/
def safe_cb_create_main_conf (impl : NgxConfHandle → Option Nat)
    (cfAlign modAlign cf m : Nat) : Nat :=
  match ngxConfNew cfAlign modAlign cf m with
  | none => 0
  | some nc =>
    match impl nc with
    | some p => p
    | none => 0

/-- Generated `create_srv_conf` callback (`src/http/module_safe.rs`). -/
def safe_cb_create_srv_conf (impl : NgxConfHandle → Option Nat)
    (cfAlign modAlign cf m : Nat) : Nat :=
  match ngxConfNew cfAlign modAlign cf m with
  | none => 0
  | some nc =>
    match impl nc with
    | some p => p
    | none => 0

/-- Generated `create_loc_conf` callback (`src/http/module_safe.rs`). -/
def safe_cb_create_loc_conf (impl : NgxConfHandle → Option Nat)
    (cfAlign modAlign cf m : Nat) : Nat :=
  match ngxConfNew cfAlign modAlign cf m with
  | none => 0
  | some nc =>
    match impl nc with
    | some p => p
    | none => 0

/-- Generated `init_main_conf` callback (`src/http/module_safe.rs`):
`NGX_CONF_ERROR` on accessor-construction failure or on a null `conf`
pointer, else the typed implementation's result mapped to the sentinels. -/
def safe_cb_init_main_conf (impl : NgxConfHandle → α → HandlerResult)
    (cfAlign modAlign cf m : Nat) (conf : Option α) : Nat :=
  match ngxConfNew cfAlign modAlign cf m with
  | none => NGX_CONF_ERROR_PTR
  | some nc =>
    match conf with
    | none => NGX_CONF_ERROR_PTR
    | some c =>
      match impl nc c with
      | HandlerResult.ok => NGX_CONF_OK_PTR
      | HandlerResult.err => NGX_CONF_ERROR_PTR

/-- Generated `merge_srv_conf` callback (`src/http/module_safe.rs`):
`NGX_CONF_ERROR` on accessor-construction failure or on null `prev`/`conf`
pointers, else the typed merge's result mapped to the sentinels. -/
def safe_cb_merge_srv_conf (impl : NgxConfHandle → α → α → α × α × Option MergeConfigError)
    (cfAlign modAlign cf m : Nat) (prev conf : Option α) : Nat :=
  match ngxConfNew cfAlign modAlign cf m with
  | none => NGX_CONF_ERROR_PTR
  | some nc =>
    match prev with
    | none => NGX_CONF_ERROR_PTR
    | some p =>
      match conf with
      | none => NGX_CONF_ERROR_PTR
      | some c =>
        match (impl nc p c).2.2 with
        | none => NGX_CONF_OK_PTR
        | some _ => NGX_CONF_ERROR_PTR

/-- Generated `merge_loc_conf` callback (`src/http/module_safe.rs`). -/
def safe_cb_merge_loc_conf (impl : NgxConfHandle → α → α → α × α × Option MergeConfigError)
    (cfAlign modAlign cf m : Nat) (prev conf : Option α) : Nat :=
  match ngxConfNew cfAlign modAlign cf m with
  | none => NGX_CONF_ERROR_PTR
  | some nc =>
    match prev with
    | none => NGX_CONF_ERROR_PTR
    | some p =>
      match conf with
      | none => NGX_CONF_ERROR_PTR
      | some c =>
        match (impl nc p c).2.2 with
        | none => NGX_CONF_OK_PTR
        | some _ => NGX_CONF_ERROR_PTR

/-! ## Command descriptors (`src/http/conf/command.rs`) -/

/-- The `ArgCount` enum of `src/http/conf/command.rs`. -/
inductive ArgCount where
  | oneOrMore
  | twoOrMore
  | one
  | two
  | three
  | four
  | five
  | six
  | seven
  | oneOrTwo
  | oneOrThree
  | twoOrThree
  | oneOrTwoOrThree
  | oneOrThreeOrTwoOrFour
deriving DecidableEq

/-- The `ArgType` enum of `src/http/conf/command.rs`. -/
inductive ArgType where
  | noArgs
  | flag
  | count (c : ArgCount)
deriving DecidableEq

/-- The `CommandContext` enum of `src/http/conf/command.rs`. -/
inductive CommandContext where
  | main
  | http
  | srv
  | loc
  | ups
  | serverIf
  | locationIf
  | limitExcept
deriving DecidableEq

/-- `ArgType::into_cmd_ty` (`src/http/conf/command.rs`). Modelled from
the spec: the numeric `NGX_CONF_*` argument-constraint bits come from the
host's headers via the FFI crate, outside the provided sources. -/
def ArgType.into_cmd_ty : ArgType → Nat
  | ArgType.noArgs => 0x00000001
  | ArgType.flag => 0x00000200
  | ArgType.count c =>
    match c with
    | ArgCount.oneOrMore => 0x00000800
    | ArgCount.twoOrMore => 0x00001000
    | ArgCount.one => 0x00000002
    | ArgCount.two => 0x00000004
    | ArgCount.three => 0x00000008
    | ArgCount.four => 0x00000010
    | ArgCount.five => 0x00000020
    | ArgCount.six => 0x00000040
    | ArgCount.seven => 0x00000080
    | ArgCount.oneOrTwo => 0x00000006
    | ArgCount.oneOrThree => 0x0000000A
    | ArgCount.twoOrThree => 0x0000000C
    | ArgCount.oneOrTwoOrThree => 0x0000000E
    | ArgCount.oneOrThreeOrTwoOrFour => 0x0000001E

/-- `CommandContext::into_cmd_ty` (`src/http/conf/command.rs`). Modelled
from the spec: the numeric `NGX_*_CONF` scope bits come from the host's
headers via the FFI crate, outside the provided sources. -/
def CommandContext.into_cmd_ty : CommandContext → Nat
  | CommandContext.main => 0x01000000
  | CommandContext.http => 0x02000000
  | CommandContext.srv => 0x04000000
  | CommandContext.loc => 0x08000000
  | CommandContext.ups => 0x10000000
  | CommandContext.serverIf => 0x20000000
  | CommandContext.locationIf => 0x40000000
  | CommandContext.limitExcept => 0x80000000

/-- The context loop of `Command::new` (`src/http/conf/command.rs`):
a do-while loop that ORs `allowed_contexts[idx].into_cmd_ty()` into `ty`,
increments `idx`, and breaks once `idx == allowed_contexts.len()`. The
`[]` case models the panic of the out-of-bounds index
`allowed_contexts[0]` on an empty slice (`none` = panic); the singleton
case mirrors the post-increment break test. -/
def commandCtxLoop (ty : Nat) : List CommandContext → Option Nat
  | [] => none
  | [c] => some (ty ||| c.into_cmd_ty)
  | c :: rest => commandCtxLoop (ty ||| c.into_cmd_ty) rest

/-- The `type_` bitmask computed by `Command::new`
(`src/http/conf/command.rs`): the argument-constraint bits combined with
every listed context's bits by the do-while loop. `none` models the
panic on an empty `allowed_contexts` slice. -/
def command_new_ty (ty : ArgType) (allowed_contexts : List CommandContext) : Option Nat :=
  commandCtxLoop ty.into_cmd_ty allowed_contexts

/-! ## The end-to-end flag scenario of the spec (claim C3), run on the
curl module's directive handler and merge. -/

/-- Global tier: default config mutated by the directive `curl on`. -/
def scenarioGlobal : CurlModuleConfig := (set_curl onBytes curlDefault).1

/-- Group tier: created default (no directive), then merged with the
Global tier as parent. -/
def scenarioGroupMerged : CurlModuleConfig := (curlMerge curlDefault scenarioGlobal).1

/-- Route tier before merging: default config mutated by the directive
`curl off`. -/
def scenarioRoute : CurlModuleConfig := (set_curl offBytes curlDefault).1

/-- Route tier after the Group→Route merge. -/
def scenarioRouteFinal : CurlModuleConfig := (curlMerge scenarioRoute scenarioGroupMerged).1

/-! ## Helper lemmas -/

/-- The explicit length guard in the flag handlers is absorbed by the
case-insensitive comparison with `on`, whose length check it repeats. -/
theorem len_two_and_eqIC_on (val : Bytes) :
    (val.length == 2 && eqIgnoreAsciiCase val onBytes) = eqIgnoreAsciiCase val onBytes := by
  cases h : val.length == 2 <;> simp [eqIgnoreAsciiCase, onBytes, h]

/-- The explicit length guard in the flag handlers is absorbed by the
case-insensitive comparison with `off`. -/
theorem len_three_and_eqIC_off (val : Bytes) :
    (val.length == 3 && eqIgnoreAsciiCase val offBytes) = eqIgnoreAsciiCase val offBytes := by
  cases h : val.length == 3 <;> simp [eqIgnoreAsciiCase, offBytes, h]

/-- C1 counterexample: on the token `no` (neither `on` nor `off`), the
awssig flag handler returns the success sentinel (null), with the flag
silently defaulted to `false`, and the curl flag handler returns `Ok`;
no validation error is produced, contrary to the claim. -/
theorem C1_other_token_not_rejected :
    (ngx_http_awssigv4_commands_set_enable noBytes awsDefault).2 = NGX_CONF_OK_PTR ∧
    (ngx_http_awssigv4_commands_set_enable noBytes awsDefault).1.enable = false ∧
    (set_curl noBytes curlDefault).2 = HandlerResult.ok ∧
    NGX_CONF_OK_PTR ≠ NGX_CONF_ERROR_PTR := by
  refine ⟨rfl, rfl, rfl, by decide⟩

/-- C1 (amended): both flag handlers parse their argument token
case-insensitively — a token equal to `on` up to ASCII case sets the
enable field to `true`, any other token (including `off`) leaves it
`false` — and every token, recognised or not, yields the success result;
an unrecognised token silently defaults the field to `false` instead of
producing a validation error. -/
theorem C1_flag_parsing (val : Bytes) (a : AwsModuleConfig) (c : CurlModuleConfig) :
    (ngx_http_awssigv4_commands_set_enable val a).2 = NGX_CONF_OK_PTR ∧
    (set_curl val c).2 = HandlerResult.ok ∧
    (ngx_http_awssigv4_commands_set_enable val a).1.enable = eqIgnoreAsciiCase val onBytes ∧
    (set_curl val c).1.enable = eqIgnoreAsciiCase val onBytes := by
  simp only [ngx_http_awssigv4_commands_set_enable, set_curl,
    len_two_and_eqIC_on, len_three_and_eqIC_off]
  cases h : eqIgnoreAsciiCase val onBytes <;>
    cases h2 : eqIgnoreAsciiCase val offBytes <;>
      simp [h, h2]

/-- C2: default loc-tier merge of `SafeHttpModule` evaluated beside the
default srv-tier merge and the raw-module loc-tier merge on parent
`enable=true`, child `enable=false`: the srv-tier and raw callbacks
compute `conf.merge(prev)` and the child comes out enabled, while the
safe loc-tier callback computes `prev.merge(conf)`, leaves the child
untouched, and so differs from both. -/
theorem C2_safe_loc_merge_swaps_arguments :
    safe_merge_srv_conf curlMerge (CurlModuleConfig.mk true) (CurlModuleConfig.mk false) =
      (CurlModuleConfig.mk true, CurlModuleConfig.mk true, none) ∧
    raw_merge_loc_conf curlMerge (CurlModuleConfig.mk true) (CurlModuleConfig.mk false) =
      (CurlModuleConfig.mk true, CurlModuleConfig.mk true, NGX_CONF_OK_PTR) ∧
    safe_merge_loc_conf curlMerge (CurlModuleConfig.mk true) (CurlModuleConfig.mk false) =
      (CurlModuleConfig.mk true, CurlModuleConfig.mk false, none) ∧
    safe_merge_loc_conf curlMerge (CurlModuleConfig.mk true) (CurlModuleConfig.mk false) ≠
      safe_merge_srv_conf curlMerge (CurlModuleConfig.mk true) (CurlModuleConfig.mk false) := by
  refine ⟨rfl, rfl, rfl, by decide⟩

/-- C3 counterexample: in the end-to-end flag scenario (Global `on`, no
Group directive, Route `off`), the Route tier's enable value after the
merge chain is not `false`. -/
theorem C3_route_not_false : ¬(scenarioRouteFinal.enable = false) := by decide

/-- C3 (amended): in the end-to-end flag scenario the Route directive
does set the flag to `false`, and the Group tier inherits `true` from
Global, but the Group→Route merge ORs the parent's flag in regardless of
the child's explicit directive value, so the Route tier ends with
`enable=true`. -/
theorem C3_scenario_final_enable :
    scenarioGlobal.enable = true ∧
    scenarioGroupMerged.enable = true ∧
    scenarioRoute.enable = false ∧
    scenarioRouteFinal.enable = true := by
  refine ⟨rfl, rfl, rfl, rfl⟩

/-- C4 counterexample: the `command!`-generated dispatch callback with a
null configuration-value pointer panics (via `Option::unwrap`) instead of
returning the error sentinel, and `Pool::from_ngx_pool` aborts on a null
pool pointer (its `assert!` fails). -/
theorem C4_null_conf_panics :
    raw_c_handler (fun _ (c : CurlModuleConfig) => (c, HandlerResult.ok)) none
      (some [onBytes]) = (none, CallbackOutcome.panicked) ∧
    (raw_c_handler (fun _ (c : CurlModuleConfig) => (c, HandlerResult.ok)) none
      (some [onBytes])).2 ≠ CallbackOutcome.ret NGX_CONF_ERROR_PTR ∧
    pool_from_ngx_pool 0 = FromPoolResult.assertFailed := by
  refine ⟨rfl, by decide, rfl⟩

/-- C4 (amended): the directive-dispatch callback generated by the
`command!` macro panics — it does not return the error sentinel — when
the configuration-value pointer or the argument-array pointer is null,
and pool construction asserts on (hence aborts for) a null pool pointer
while succeeding on every non-null one. -/
theorem C4_abi_violations_panic (α : Type) (h : List Bytes → α → α × HandlerResult)
    (a : Option (List Bytes)) (c : α) (p : Nat) :
    raw_c_handler h none a = (none, CallbackOutcome.panicked) ∧
    raw_c_handler h (some c) none = (some c, CallbackOutcome.panicked) ∧
    pool_from_ngx_pool 0 = FromPoolResult.assertFailed ∧
    pool_from_ngx_pool (p + 1) = FromPoolResult.pool (p + 1) := by
  refine ⟨rfl, rfl, rfl, ?_⟩
  simp [pool_from_ngx_pool]

/-- The enable flag computed by the awssig merge is the OR of the two
tiers' flags, whichever branch the merge takes. -/
theorem awssigMerge_enable (s p : AwsModuleConfig) :
    ((awssigMerge s p).1).enable = (s.enable || p.enable) := by
  unfold awssigMerge
  cases pe : p.enable <;> cases se : s.enable <;>
    simp only [pe, se] <;>
      split_ifs <;> simp_all

/-- C5: the enable flag is monotone under both example merges — a parent
with the flag set forces the flag in the merged child, and a child's set
flag survives the merge — covering the state `merge` leaves behind even
when it returns an error. -/
theorem C5_enable_monotone (s p : CurlModuleConfig) (a b : AwsModuleConfig) :
    (p.enable = true → (curlMerge s p).1.enable = true) ∧
    (s.enable = true → (curlMerge s p).1.enable = true) ∧
    (b.enable = true → (awssigMerge a b).1.enable = true) ∧
    (a.enable = true → (awssigMerge a b).1.enable = true) := by
  refine ⟨?_, ?_, ?_, ?_⟩ <;> intro h
  · simp [curlMerge, h]
  · cases pe : p.enable <;> simp [curlMerge, pe, h]
  · simp [awssigMerge_enable, h]
  · simp [awssigMerge_enable, h]

/-- C5 witness: the monotonicity theorem applied at concrete
configurations with the parent flag set. -/
theorem C5_enable_monotone_witness :
    (CurlModuleConfig.mk true).enable = true ∧
    (curlMerge (CurlModuleConfig.mk false) (CurlModuleConfig.mk true)).1.enable = true := by
  exact ⟨rfl,
    (C5_enable_monotone (CurlModuleConfig.mk false) (CurlModuleConfig.mk true)
      awsDefault awsDefault).1 rfl⟩

/-- A resolved string field of the awssig merge is empty exactly when the
field was empty at both tiers. -/
theorem awsResolveField_isEmpty (a b : Bytes) :
    (awsResolveField a b).isEmpty = (a.isEmpty && b.isEmpty) := by
  unfold awsResolveField
  cases h : a.isEmpty <;> cases h2 : b.isEmpty <;> simp [h, h2]

set_option maxHeartbeats 2000000 in
/-- C6: the awssig merge returns the `NoValue` error exactly when the
resolved enable flag is set and one of the required fields (`access_key`,
`secret_key`, `s3_bucket`) is unset at both tiers; and it fails at the
first such field in declaration order — the fields after the failing one
are left untouched in the returned state. -/
theorem C6_required_field_errors (s p : AwsModuleConfig) :
    ((awssigMerge s p).2 = some MergeConfigError.NoValue ↔
      ((s.enable || p.enable) = true ∧
        ((s.access_key.isEmpty && p.access_key.isEmpty) = true ∨
         (s.secret_key.isEmpty && p.secret_key.isEmpty) = true ∨
         (s.s3_bucket.isEmpty && p.s3_bucket.isEmpty) = true))) ∧
    ((s.enable || p.enable) = true →
      (s.access_key.isEmpty && p.access_key.isEmpty) = true →
      (awssigMerge s p).1.secret_key = s.secret_key ∧
      (awssigMerge s p).1.s3_bucket = s.s3_bucket ∧
      (awssigMerge s p).1.s3_endpoint = s.s3_endpoint) ∧
    ((s.enable || p.enable) = true →
      (s.access_key.isEmpty && p.access_key.isEmpty) = false →
      (s.secret_key.isEmpty && p.secret_key.isEmpty) = true →
      (awssigMerge s p).1.s3_bucket = s.s3_bucket ∧
      (awssigMerge s p).1.s3_endpoint = s.s3_endpoint) ∧
    ((s.enable || p.enable) = true →
      (s.access_key.isEmpty && p.access_key.isEmpty) = false →
      (s.secret_key.isEmpty && p.secret_key.isEmpty) = false →
      (s.s3_bucket.isEmpty && p.s3_bucket.isEmpty) = true →
      (awssigMerge s p).1.s3_endpoint = s.s3_endpoint) := by
  cases pe : p.enable <;> cases se : s.enable <;>
    cases hak : s.access_key.isEmpty <;> cases pak : p.access_key.isEmpty <;>
      cases hsk : s.secret_key.isEmpty <;> cases psk : p.secret_key.isEmpty <;>
        cases hsb : s.s3_bucket.isEmpty <;> cases psb : p.s3_bucket.isEmpty <;>
          simp_all [awssigMerge, awsResolveField_isEmpty]

/-- C6 witness: the characterisation applied to a configuration that is
enabled with every key unset at both tiers — the merge fails with
`NoValue` and the fields after `access_key` are untouched. -/
theorem C6_required_field_errors_witness :
    (awssigMerge (AwsModuleConfig.mk true [] [] [] []) awsDefault).2 =
      some MergeConfigError.NoValue ∧
    (awssigMerge (AwsModuleConfig.mk true [] [] [] []) awsDefault).1.s3_endpoint = [] := by
  refine ⟨(C6_required_field_errors (AwsModuleConfig.mk true [] [] [] []) awsDefault).1.mpr
    ⟨by decide, Or.inl (by decide)⟩, ?_⟩
  exact ((C6_required_field_errors (AwsModuleConfig.mk true [] [] [] []) awsDefault).2.1
    (by decide) (by decide)).2.2

/-- C7: `Pool::allocate` returns `None` only when the arena allocation
returned null or cleanup registration failed; on registration failure the
just-written value's destructor runs in place exactly once, `None` is
returned, and no cleanup handler stays registered (so arena teardown will
never invoke a destructor for the failed allocation). -/
theorem C7_allocate_failure (szT palloc cleanup : Nat) :
    ((pool_allocate szT palloc cleanup).ret = none → palloc = 0 ∨ cleanup = 0) ∧
    (szT ≠ 0 → palloc ≠ 0 → cleanup = 0 →
      pool_allocate szT palloc cleanup =
        { ret := none, dropsInPlace := 1, cleanupRegistered := false }) ∧
    ((pool_allocate szT palloc cleanup).ret = none →
      (pool_allocate szT palloc cleanup).cleanupRegistered = false) := by
  unfold pool_allocate
  split_ifs <;> simp_all

/-- C7 witness: the allocate theorem applied with a one-byte value, a
successful arena allocation and a failed cleanup registration. -/
theorem C7_allocate_failure_witness :
    (1 : Nat) ≠ 0 ∧
    pool_allocate 1 1 0 =
      { ret := none, dropsInPlace := 1, cleanupRegistered := false } := by
  exact ⟨by decide, (C7_allocate_failure 1 1 0).2.1 (by decide) (by decide) rfl⟩

/-- C8: `NgxConf::new` fails exactly on a null or misaligned context or
module pointer, and on that failure every generated lifecycle callback
returns its host error value — `NGX_ERROR` for pre/postconfiguration,
null for the create callbacks, `NGX_CONF_ERROR` for init and merge —
whatever the module's typed implementation would do. -/
theorem C8_accessor_validation (cfA mA cf m : Nat) (α : Type)
    (ipre ipost : NgxConfHandle → Option SafeError)
    (icm ics icl : NgxConfHandle → Option Nat)
    (iim : NgxConfHandle → α → HandlerResult)
    (ims iml : NgxConfHandle → α → α → α × α × Option MergeConfigError)
    (confPtr prevPtr confPtr2 : Option α) :
    (ngxConfNew cfA mA cf m = none ↔
      (cf = 0 ∨ cf % cfA ≠ 0 ∨ m = 0 ∨ m % mA ≠ 0)) ∧
    (ngxConfNew cfA mA cf m = none →
      safe_cb_preconfiguration ipre cfA mA cf m = NGX_ERROR_STATUS ∧
      safe_cb_postconfiguration ipost cfA mA cf m = NGX_ERROR_STATUS ∧
      safe_cb_create_main_conf icm cfA mA cf m = 0 ∧
      safe_cb_create_srv_conf ics cfA mA cf m = 0 ∧
      safe_cb_create_loc_conf icl cfA mA cf m = 0 ∧
      safe_cb_init_main_conf iim cfA mA cf m confPtr = NGX_CONF_ERROR_PTR ∧
      safe_cb_merge_srv_conf ims cfA mA cf m prevPtr confPtr2 = NGX_CONF_ERROR_PTR ∧
      safe_cb_merge_loc_conf iml cfA mA cf m prevPtr confPtr2 = NGX_CONF_ERROR_PTR) := by
  constructor
  · unfold ngxConfNew
    split_ifs <;> simp_all <;> tauto
  · intro h
    refine ⟨?_, ?_, ?_, ?_, ?_, ?_, ?_, ?_⟩ <;>
      simp [safe_cb_preconfiguration, safe_cb_postconfiguration,
        safe_cb_create_main_conf, safe_cb_create_srv_conf, safe_cb_create_loc_conf,
        safe_cb_init_main_conf, safe_cb_merge_srv_conf, safe_cb_merge_loc_conf, h]

/-- C8 witness: the validation theorem applied to a null context pointer
with concrete implementations: construction fails and the callbacks all
return their error values. -/
theorem C8_accessor_validation_witness :
    ngxConfNew 8 8 0 8 = none ∧
    safe_cb_preconfiguration (fun _ => none) 8 8 0 8 = NGX_ERROR_STATUS := by
  refine ⟨rfl, ?_⟩
  exact ((C8_accessor_validation 8 8 0 8 CurlModuleConfig
    (fun _ => none) (fun _ => none) (fun _ => none) (fun _ => none) (fun _ => none)
    (fun _ _ => HandlerResult.ok) (fun _ p c => (p, c, none)) (fun _ p c => (p, c, none))
    none none none).2 rfl).1

/-- C9: on a non-null configuration pointer and a non-null, non-empty
argument array, the `command!` dispatch callback hands the typed handler
exactly the tail of the host array (index 0, the directive name, is
skipped), returns the success sentinel on `Ok` and the non-null error
sentinel on `Err`, and produces no outcome other than these two. -/
theorem C9_dispatch_mapping (α : Type) (h : List Bytes → α → α × HandlerResult)
    (c : α) (a0 : Bytes) (rest : List Bytes) :
    raw_c_handler h (some c) (some (a0 :: rest)) =
      (some (h rest c).1,
        CallbackOutcome.ret
          (match (h rest c).2 with
           | HandlerResult.ok => NGX_CONF_OK_PTR
           | HandlerResult.err => NGX_CONF_ERROR_PTR)) ∧
    NGX_CONF_ERROR_PTR ≠ 0 ∧
    ((raw_c_handler h (some c) (some (a0 :: rest))).2 =
        CallbackOutcome.ret NGX_CONF_OK_PTR ∨
     (raw_c_handler h (some c) (some (a0 :: rest))).2 =
        CallbackOutcome.ret NGX_CONF_ERROR_PTR) := by
  refine ⟨by simp [raw_c_handler], by decide, ?_⟩
  cases hr : (h rest c).2 <;> simp [raw_c_handler, hr]

/-- C9 witness: the dispatch theorem applied to a concrete handler,
configuration and two-element argument array — the directive name is
dropped and the `Ok` result maps to the success sentinel. -/
theorem C9_dispatch_mapping_witness :
    raw_c_handler (fun _ (c : CurlModuleConfig) => (c, HandlerResult.ok))
      (some curlDefault) (some [onBytes, offBytes]) =
      (some curlDefault, CallbackOutcome.ret NGX_CONF_OK_PTR) := by
  exact (C9_dispatch_mapping CurlModuleConfig (fun _ c => (c, HandlerResult.ok))
    curlDefault onBytes [offBytes]).1

/-- The do-while context loop of `Command::new` on a non-empty list is
the left fold of bitwise OR over the contexts' bits. -/
theorem commandCtxLoop_nonempty (ty : Nat) (c : CommandContext) (rest : List CommandContext) :
    commandCtxLoop ty (c :: rest) =
      some ((c :: rest).foldl (fun acc x => acc ||| x.into_cmd_ty) ty) := by
  induction rest generalizing ty c with
  | nil => rfl
  | cons d ds ih => simpa [commandCtxLoop] using ih (ty ||| c.into_cmd_ty) d

/-- C10 counterexample: `Command::new` with an empty context list panics
(the loop indexes `allowed_contexts[0]` before any bounds check), so no
bitmask is produced for the empty list, contrary to the claim that
construction is well-defined there. -/
theorem C10_empty_contexts_panic :
    command_new_ty ArgType.flag [] = none ∧
    command_new_ty ArgType.flag [] ≠ some (ArgType.flag.into_cmd_ty) := by
  refine ⟨rfl, by decide⟩

/-- C10 (amended): for every argument-type constraint and every
*non-empty* context list, `Command::new` computes the bitmask obtained by
OR-ing the argument-constraint bits with every listed context's bits; on
the empty context list construction panics instead of producing a mask. -/
theorem C10_type_bitmask (t : ArgType) (c : CommandContext) (rest : List CommandContext) :
    command_new_ty t (c :: rest) =
      some ((c :: rest).foldl (fun acc x => acc ||| x.into_cmd_ty) t.into_cmd_ty) ∧
    command_new_ty t [] = none := by
  exact ⟨commandCtxLoop_nonempty t.into_cmd_ty c rest, rfl⟩

end NgxRust
